import Mathlib

/-!
Shallow embedding of the CANopen traffic dumper (src/src/dump.c) of the
openCANopen repository.  The decoders, the per-node reconstruction state
and the option resolution are translated from dump.c.  The repository
headers that dump.c includes (canopen/sdo.h, canopen/dump.h,
canopen/heartbeat.h, canopen/emcy.h, vector.h, net-util.h) are not among
the given sources; the few accessors and constants taken from them are
modelled from the specification and are marked as such in their doc
comments.

Printing through `printf`/`printx` is modelled by returning the list of
chunks written to the standard output stream, one list entry per printf
call; a decoder that would dereference the NULL node-state pointer (a
fault, undefined behaviour in C) returns `none`.
-/

namespace CoDump

/-- A CAN bus frame as in `struct can_frame` used by dump.c: identifier
word (which carries the remote-request flag bit), data length code and
the payload bytes. -/
structure can_frame where
  can_id : Nat
  can_dlc : Nat
  data : List Nat
deriving DecidableEq

/-- Payload byte access, as `cf->data[i]` on the fixed `uint8_t data[8]`
array: entries beyond the supplied list read as 0 and every byte is
reduced modulo 256, mirroring the uint8_t type. -/
def can_frame.byte (cf : can_frame) (i : Nat) : Nat := cf.data.getD i 0 % 256

/-- The remote-request flag bit inside `can_id` (CAN_RTR_FLAG, 0x40000000). -/
def CAN_RTR_FLAG : Nat := 1073741824

/-- Largest CAN data length code, as in dump.c. -/
def CAN_MAX_DLC : Nat := 8

/-- Wrap-around modulus of the C `size_t` type (64 bits). -/
def SIZE_T_MOD : Nat := 18446744073709551616

/-- Wrap-around modulus of the C `unsigned int` / `enum` type (32 bits). -/
def UINT_MOD : Nat := 4294967296

/-- Modelled from the spec: canopen/dump.h (missing from the given
sources) defines `enum co_dump_options`; per the spec the mask has one
independent bit per option.  Bit 0 is the include-timestamp bit. -/
def CO_DUMP_TIMESTAMP : Nat := 1

/-- Modelled from the spec: NMT service-class filter bit of
`enum co_dump_options` (canopen/dump.h is missing from the sources). -/
def CO_DUMP_FILTER_NMT : Nat := 2

/-- Modelled from the spec: SYNC service-class filter bit. -/
def CO_DUMP_FILTER_SYNC : Nat := 4

/-- Modelled from the spec: TIME service-class filter bit. -/
def CO_DUMP_FILTER_TIMESTAMP : Nat := 8

/-- Modelled from the spec: EMCY service-class filter bit. -/
def CO_DUMP_FILTER_EMCY : Nat := 16

/-- Modelled from the spec: SDO service-class filter bit. -/
def CO_DUMP_FILTER_SDO : Nat := 32

/-- Modelled from the spec: heartbeat service-class filter bit. -/
def CO_DUMP_FILTER_HEARTBEAT : Nat := 64

/-- Modelled from the spec: the union of every service-class filter bit
(NMT, SYNC, TIME, EMCY, SDO, Heartbeat and four PDO-number bits at
128..1024); the include-timestamp bit and the source-mode selector bits
lie outside this mask. -/
def CO_DUMP_FILTER_MASK : Nat := 2046

/-- Per-node reconstruction state, `struct node_state` of dump.c.  The
growable byte vector `sdo_data` is modelled by the list of its live
contents (`index` = list length); capacity is not observable. -/
structure node_state where
  current_mux : Nat
  sdo_data : List Nat
  device_type : Nat
deriving DecidableEq

/-- The process-wide mutable state of dump.c: the resolved options word
`options_`, the current timestamp `current_time_` and the 127-entry
node-state table `node_state_`.  The table is keyed directly by node id;
entry `node_state_ i` models the C array cell `node_state_[i - 1]` for
ids 1..127 (other keys are never reachable through `get_node_state`). -/
structure DumpState where
  options_ : Nat
  current_time_ : Nat
  node_state_ : Nat → node_state

/-- Embedding of `get_node_state` of dump.c: a node-state handle for ids 1..127 and
NULL (here `none`) otherwise. -/
def get_node_state (s : DumpState) (nodeid : Nat) : Option node_state :=
  if 0 < nodeid ∧ nodeid ≤ 127 then some (s.node_state_ nodeid) else none

/-- Writing back through a node-state handle obtained for `nodeid`. -/
def set_node_state (s : DumpState) (nodeid : Nat) (st : node_state) : DumpState :=
  { s with node_state_ := fun i => if i = nodeid then st else s.node_state_ i }

/-- Decimal rendering of a number, as printf `%d`. -/
def decStr (n : Nat) : String := toString n

/-- Lowercase hexadecimal rendering, as printf `%x`. -/
def hexStr (n : Nat) : String := String.mk (Nat.toDigits 16 n)

/-- printf `%#x`: `0x`-prefixed hexadecimal, except plain `0` for zero. -/
def hashHexStr (n : Nat) : String := if n = 0 then "0" else "0x" ++ hexStr n

/-- Two-digit hexadecimal rendering of a single byte. -/
def byteHexStr (b : Nat) : String :=
  String.mk [Nat.digitChar (b / 16 % 16), Nat.digitChar (b % 16)]

/-- Modelled from the spec: the `hexdump` byte-buffer formatting utility
(net-util.h / its implementation is missing from the given sources); a
pure byte-to-hex rendering that the dumper treats as an out-of-scope
collaborator. -/
def hexdump (data : List Nat) : String := String.join (data.map byteHexStr)

/-- Modelled from the spec: `errorCodeToString(code, deviceTypeLow16)`
error-text collaborator (canopen/error.h implementation is missing from
the given sources). -/
def error_code_to_string (code device_type_low : Nat) : String :=
  "error-" ++ hexStr code ++ "-" ++ hexStr device_type_low

/-- Modelled from the spec: `sdoAbortToString(code)` collaborator
(sdo_strerror; implementation missing from the given sources). -/
def sdo_strerror (code : Nat) : String := "abort-" ++ hexStr code

/-- printf `%06llu` zero padding of the microsecond part. -/
def pad6 (n : Nat) : String :=
  String.mk (List.replicate (6 - (toString n).length) (Char.ofNat 48)) ++ toString n

/-- Embedding of `print_ts` of dump.c: the `seconds.microseconds ` prefix chunk when
the include-timestamp option is set, nothing otherwise. -/
def print_ts (s : DumpState) : List String :=
  if s.options_ &&& CO_DUMP_TIMESTAMP ≠ 0 then
    [decStr (s.current_time_ / 1000000) ++ "." ++ pad6 (s.current_time_ % 1000000) ++ " "]
  else []

/-- The `printx` macro's uniform line ending: the remote-request marker
(present exactly when `can_id & CAN_RTR_FLAG` is set) followed by the
newline. -/
def rtr_tail (cf : can_frame) : String :=
  (if cf.can_id &&& CAN_RTR_FLAG ≠ 0 then " [RTR]" else "") ++ "\n"

/-- Modelled from the spec: offset of the expedited data inside an SDO
initiate frame (SDO_EXPEDIATED_DATA_IDX of canopen/sdo.h, which is
missing from the given sources): command byte, 16-bit index, subindex,
then data. -/
def SDO_EXPEDIATED_DATA_IDX : Nat := 4

/-- Modelled from the spec: offset of the payload inside an SDO segment
frame (SDO_SEGMENT_IDX of canopen/sdo.h): the command byte, then data. -/
def SDO_SEGMENT_IDX : Nat := 1

/-- Modelled from the spec: the SDO command specifier, the top three bits
of the command byte (sdo_get_cs of canopen/sdo.h). -/
def sdo_get_cs (cf : can_frame) : Nat := cf.byte 0 >>> 5

/-- Modelled from the spec: the expedited flag `e` (bit 1) of an SDO
initiate command byte (sdo_is_expediated of canopen/sdo.h). -/
def sdo_is_expediated (cf : can_frame) : Bool := cf.byte 0 &&& 2 ≠ 0

/-- Modelled from the spec: the size-indicated flag `s` (bit 0) of an SDO
initiate command byte (sdo_is_size_indicated of canopen/sdo.h). -/
def sdo_is_size_indicated (cf : can_frame) : Bool := cf.byte 0 &&& 1 ≠ 0

/-- Modelled from the spec: the end-of-segment flag `c` (bit 0) of an SDO
segment command byte (sdo_is_end_segment of canopen/sdo.h). -/
def sdo_is_end_segment (cf : can_frame) : Bool := cf.byte 0 &&& 1 ≠ 0

/-- Modelled from the spec: the 16-bit little-endian object index at
bytes 1..2 (sdo_get_index of canopen/sdo.h). -/
def sdo_get_index (cf : can_frame) : Nat := cf.byte 1 ||| (cf.byte 2 <<< 8)

/-- Modelled from the spec: the subindex byte at offset 3
(sdo_get_subindex of canopen/sdo.h). -/
def sdo_get_subindex (cf : can_frame) : Nat := cf.byte 3

/-- Modelled from the spec: the expedited byte count declared in an
initiate command byte, `4 - n` with `n` in bits 2..3
(sdo_get_expediated_size of canopen/sdo.h). -/
def sdo_get_expediated_size (cf : can_frame) : Nat := 4 - ((cf.byte 0 >>> 2) &&& 3)

/-- Modelled from the spec: the 4-byte little-endian total transfer size
at bytes 4..7 of a segmented initiate (sdo_get_indicated_size of
canopen/sdo.h). -/
def sdo_get_indicated_size (cf : can_frame) : Nat :=
  cf.byte 4 ||| (cf.byte 5 <<< 8) ||| (cf.byte 6 <<< 16) ||| (cf.byte 7 <<< 24)

/-- Modelled from the spec: the multiplexer of an object-dictionary
entry, packing index and subindex into one word (SDO_MUX of
canopen/sdo.h). -/
def SDO_MUX (index subindex : Nat) : Nat := (index <<< 16) ||| subindex

/-- Embedding of `get_expediated_size` of dump.c.  The available-byte count
`cf->can_dlc - SDO_EXPEDIATED_DATA_IDX` is computed in `size_t`
arithmetic and therefore wraps modulo 2^64 when the frame is shorter
than the fixed offset. -/
def get_expediated_size (cf : can_frame) : Nat :=
  let max_size := (cf.can_dlc + SIZE_T_MOD - SDO_EXPEDIATED_DATA_IDX) % SIZE_T_MOD
  if sdo_is_size_indicated cf then min (sdo_get_expediated_size cf) max_size
  else max_size

/-- The expedited data slice `&cf->data[SDO_EXPEDIATED_DATA_IDX]` read
for `size` bytes. -/
def expediated_payload (cf : can_frame) (size : Nat) : List Nat :=
  (List.range size).map (fun i => cf.byte (SDO_EXPEDIATED_DATA_IDX + i))

/-- The segment payload slice: bytes from `SDO_SEGMENT_IDX` up to the
frame's data length. -/
def segment_payload (cf : can_frame) : List Nat :=
  (List.range (cf.can_dlc - SDO_SEGMENT_IDX)).map (fun i => cf.byte (SDO_SEGMENT_IDX + i))

/-- The visible-string object-dictionary type code (CANOPEN_VISIBLE_STRING). -/
def CANOPEN_VISIBLE_STRING : Nat := 9

/-- An other (numeric) object-dictionary type code. -/
def CANOPEN_UNSIGNED32 : Nat := 7

/-- Modelled from the spec: the `dictionaryTypeOf(multiplexer)` lookup
collaborator (sdo_dict_type of canopen/sdo-dict.h, missing from the
given sources); object 0x1008:0 (manufacturer device name) is a visible
string, other entries resolve to a numeric type. -/
def sdo_dict_type (mux : Nat) : Nat :=
  if mux = SDO_MUX 4104 0 then CANOPEN_VISIBLE_STRING else CANOPEN_UNSIGNED32

/-- Embedding of `make_string` of dump.c: the payload quoted verbatim. -/
def make_string (data : List Nat) : String :=
  "\"" ++ String.mk (data.map Char.ofNat) ++ "\""

/-- Embedding of `get_segment_data` of dump.c: quoted-string rendering when node state
exists and the dictionary type of its current multiplexer is the
visible-string type, hexadecimal rendering otherwise. -/
def get_segment_data (st : Option node_state) (data : List Nat) : String :=
  match st with
  | some st =>
      if sdo_dict_type st.current_mux = CANOPEN_VISIBLE_STRING then make_string data
      else hexdump data
  | none => hexdump data

/-- Modelled from the spec: 16-bit little-endian EMCY error code at
bytes 0..1 (emcy_get_code of canopen/emcy.h, missing from the given
sources). -/
def emcy_get_code (cf : can_frame) : Nat := cf.byte 0 ||| (cf.byte 1 <<< 8)

/-- Modelled from the spec: the EMCY error register byte at offset 2. -/
def emcy_get_register (cf : can_frame) : Nat := cf.byte 2

/-- Modelled from the spec: the manufacturer-specific EMCY field, the
remaining five bytes 3..7, little endian. -/
def emcy_get_manufacturer_error (cf : can_frame) : Nat :=
  cf.byte 3 ||| (cf.byte 4 <<< 8) ||| (cf.byte 5 <<< 16) ||| (cf.byte 6 <<< 24) |||
    (cf.byte 7 <<< 32)

/-- Little-endian value of a list of bytes, as the `byteorder2` copy into
the 4-byte `device_type` field on a little-endian host. -/
def le_bytes (l : List Nat) : Nat := l.foldr (fun b acc => b % 256 + 256 * acc) 0

/-- Embedding of `dump_emcy` of dump.c.  With a non-empty payload the C code reads
`state->device_type` without checking the handle for NULL, so for a node
id without a state entry the decoder faults: modelled by `none`. -/
def dump_emcy (msg_id : Nat) (cf : can_frame) (s : DumpState) :
    Option (DumpState × List String) :=
  if s.options_ &&& CO_DUMP_FILTER_EMCY = 0 then some (s, [])
  else if cf.can_dlc = 0 then
    some (s, print_ts s ++ ["EMCY " ++ decStr msg_id ++ " EMPTY" ++ rtr_tail cf])
  else
    match get_node_state s msg_id with
    | none => none
    | some st =>
        some (s, print_ts s ++
          ["EMCY " ++ decStr msg_id ++ " code=" ++ hashHexStr (emcy_get_code cf) ++
            ",register=" ++ hashHexStr (emcy_get_register cf) ++
            ",manufacturer-error=" ++ hashHexStr (emcy_get_manufacturer_error cf) ++
            ",dlc=" ++ decStr cf.can_dlc ++ ",text=\"" ++
            error_code_to_string (emcy_get_code cf) (st.device_type &&& 65535) ++
            "\"" ++ rtr_tail cf])

/-- Embedding of `dump_sdo_dl_init_req` of dump.c: records the multiplexer on a
segmented initiate, clears the accumulator when a size is indicated in a
full-length frame, and renders the event.  The last branch mirrors the
source exactly: a segmented initiate without an indicated size (or in a
short frame) takes neither printx branch, so its line is left without
terminator. -/
def dump_sdo_dl_init_req (msg_id : Nat) (cf : can_frame) (s : DumpState) :
    DumpState × List String :=
  let is_exp := sdo_is_expediated cf
  let is_sz := sdo_is_size_indicated cf
  let index := sdo_get_index cf
  let subindex := sdo_get_subindex cf
  let s1 :=
    match get_node_state s msg_id with
    | some st =>
        if is_exp = false then
          set_node_state s msg_id { st with current_mux := SDO_MUX index subindex }
        else s
    | none => s
  let head := "RSDO " ++ decStr msg_id ++ " init-download-" ++
      (if is_exp then "expediated" else "segment") ++
      " index=" ++ hexStr index ++ ",subindex=" ++ decStr subindex
  if is_exp = false ∧ is_sz = true ∧ cf.can_dlc = CAN_MAX_DLC then
    let size := sdo_get_indicated_size cf
    let s2 :=
      match get_node_state s1 msg_id with
      | some st => set_node_state s1 msg_id { st with sdo_data := [] }
      | none => s1
    (s2, print_ts s ++ [head, ",size=" ++ decStr size ++ rtr_tail cf])
  else if is_exp then
    let size := get_expediated_size cf
    (s1, print_ts s ++
      [head, ",size=" ++ decStr size ++ ",data=" ++
        hexdump (expediated_payload cf size) ++ rtr_tail cf])
  else
    (s1, print_ts s ++ [head])

/-- Embedding of `dump_sdo_dl_seg_req` of dump.c: append the segment payload to the
node's accumulator when state exists, render the chunk, and on the end
segment additionally render the whole accumulated buffer and clear the
multiplexer.  A zero-length frame makes `can_dlc - SDO_SEGMENT_IDX` wrap
in `size_t`, so the huge append faults: modelled by `none`. -/
def dump_sdo_dl_seg_req (msg_id : Nat) (cf : can_frame) (s : DumpState) :
    Option (DumpState × List String) :=
  if cf.can_dlc < SDO_SEGMENT_IDX then none
  else
    let is_end := sdo_is_end_segment cf
    let data := segment_payload cf
    let size := cf.can_dlc - SDO_SEGMENT_IDX
    let s1 :=
      match get_node_state s msg_id with
      | some st => set_node_state s msg_id { st with sdo_data := st.sdo_data ++ data }
      | none => s
    let head := "RSDO " ++ decStr msg_id ++ " download-segment" ++
        (if is_end then "-end" else "") ++ " size=" ++ decStr size ++
        ",data=" ++ get_segment_data (get_node_state s1 msg_id) data
    match get_node_state s1 msg_id with
    | some st =>
        if is_end then
          some (set_node_state s1 msg_id { st with current_mux := 0 },
            print_ts s ++
              [head,
               ",final-size=" ++ decStr st.sdo_data.length ++ ",final-data=" ++
                 get_segment_data (get_node_state s1 msg_id) st.sdo_data,
               rtr_tail cf])
        else some (s1, print_ts s ++ [head, rtr_tail cf])
    | none => some (s1, print_ts s ++ [head, rtr_tail cf])

/-- Embedding of `dump_sdo_ul_init_req` of dump.c. -/
def dump_sdo_ul_init_req (msg_id : Nat) (cf : can_frame) (s : DumpState) :
    DumpState × List String :=
  (s, print_ts s ++
    ["RSDO " ++ decStr msg_id ++ " init-upload-segment index=" ++
      hexStr (sdo_get_index cf) ++ ",subindex=" ++ decStr (sdo_get_subindex cf) ++
      rtr_tail cf])

/-- Embedding of `dump_sdo_ul_seg_req` of dump.c. -/
def dump_sdo_ul_seg_req (msg_id : Nat) (cf : can_frame) (s : DumpState) :
    DumpState × List String :=
  (s, print_ts s ++ ["RSDO " ++ decStr msg_id ++ " upload-segment" ++ rtr_tail cf])

/-- Modelled from the spec: the SDO abort code, bytes 4..7 little endian
(sdo_get_abort_code of canopen/sdo.h). -/
def sdo_get_abort_code (cf : can_frame) : Nat :=
  cf.byte 4 ||| (cf.byte 5 <<< 8) ||| (cf.byte 6 <<< 16) ||| (cf.byte 7 <<< 24)

/-- Embedding of `dump_sdo_abort` of dump.c, with the direction letter as a string. -/
def dump_sdo_abort (type : String) (msg_id : Nat) (cf : can_frame) (s : DumpState) :
    DumpState × List String :=
  (s, print_ts s ++
    [type ++ "SDO " ++ decStr msg_id ++ " abort index=" ++ hexStr (sdo_get_index cf) ++
      ",subindex=" ++ decStr (sdo_get_subindex cf) ++ ",reason=\"" ++
      sdo_strerror (sdo_get_abort_code cf) ++ "\"" ++ rtr_tail cf])

/-- Embedding of `dump_sdo_ul_init_res` of dump.c.  On an expedited response for the
device-type object (index 0x1000, subindex 0) the C code writes
`state->device_type` through the handle without a NULL check, so for a
node id without a state entry the decoder faults: modelled by `none`.
The final branch mirrors the source exactly: a segmented initiate
response without an indicated size leaves its line unterminated. -/
def dump_sdo_ul_init_res (msg_id : Nat) (cf : can_frame) (s : DumpState) :
    Option (DumpState × List String) :=
  let is_exp := sdo_is_expediated cf
  let is_sz := sdo_is_size_indicated cf
  let index := sdo_get_index cf
  let subindex := sdo_get_subindex cf
  let s1 :=
    match get_node_state s msg_id with
    | some st =>
        if is_exp = false then
          set_node_state s msg_id { st with current_mux := SDO_MUX index subindex }
        else s
    | none => s
  let head := "TSDO " ++ decStr msg_id ++ " init-upload-" ++
      (if is_exp then "expediated" else "segment") ++
      " index=" ++ hexStr index ++ ",subindex=" ++ decStr subindex
  if is_exp = false ∧ is_sz = true ∧ cf.can_dlc = CAN_MAX_DLC then
    let size := sdo_get_indicated_size cf
    let s2 :=
      match get_node_state s1 msg_id with
      | some st => set_node_state s1 msg_id { st with sdo_data := [] }
      | none => s1
    some (s2, print_ts s ++ [head, ",size=" ++ decStr size ++ rtr_tail cf])
  else if is_exp then
    let size := get_expediated_size cf
    let payload := expediated_payload cf size
    let line := ",size=" ++ decStr size ++ ",data=" ++ hexdump payload ++ rtr_tail cf
    if index = 4096 ∧ subindex = 0 then
      match get_node_state s1 msg_id with
      | some st =>
          some (set_node_state s1 msg_id
                  { st with device_type := le_bytes (payload.take 4) },
                print_ts s ++ [head, line])
      | none => none
    else some (s1, print_ts s ++ [head, line])
  else
    some (s1, print_ts s ++ [head])

/-- Embedding of `dump_sdo_ul_seg_res` of dump.c: like the download segment decoder
but for the upload direction; on the end segment the accumulated buffer
is rendered, yet the multiplexer is left untouched. -/
def dump_sdo_ul_seg_res (msg_id : Nat) (cf : can_frame) (s : DumpState) :
    Option (DumpState × List String) :=
  if cf.can_dlc < SDO_SEGMENT_IDX then none
  else
    let is_end := sdo_is_end_segment cf
    let data := segment_payload cf
    let size := cf.can_dlc - SDO_SEGMENT_IDX
    let s1 :=
      match get_node_state s msg_id with
      | some st => set_node_state s msg_id { st with sdo_data := st.sdo_data ++ data }
      | none => s
    let head := "TSDO " ++ decStr msg_id ++ " upload-segment" ++
        (if is_end then "-end" else "") ++ " size=" ++ decStr size ++
        ",data=" ++ get_segment_data (get_node_state s1 msg_id) data
    match get_node_state s1 msg_id with
    | some st =>
        if is_end then
          some (s1, print_ts s ++
            [head,
             ",final-size=" ++ decStr st.sdo_data.length ++ ",final-data=" ++
               get_segment_data (get_node_state s1 msg_id) st.sdo_data,
             rtr_tail cf])
        else some (s1, print_ts s ++ [head, rtr_tail cf])
    | none => some (s1, print_ts s ++ [head, rtr_tail cf])

/-- Embedding of `dump_sdo_dl_init_res` of dump.c. -/
def dump_sdo_dl_init_res (msg_id : Nat) (cf : can_frame) (s : DumpState) :
    DumpState × List String :=
  (s, print_ts s ++ ["TSDO " ++ decStr msg_id ++ " init-download-segment" ++ rtr_tail cf])

/-- Embedding of `dump_sdo_dl_seg_res` of dump.c. -/
def dump_sdo_dl_seg_res (msg_id : Nat) (cf : can_frame) (s : DumpState) :
    DumpState × List String :=
  (s, print_ts s ++
    ["TSDO " ++ decStr msg_id ++ " download-segment" ++
      (if sdo_is_end_segment cf then "-end" else "") ++ rtr_tail cf])

/-- Embedding of `dump_rsdo` of dump.c: the receive-SDO dispatcher.  The command
specifier values follow the client-command-specifier encoding of the
protocol (enum sdo_ccs of the missing canopen/sdo.h, modelled from the
spec): 0 download segment, 1 initiate download, 2 initiate upload,
3 upload segment, 4 abort. -/
def dump_rsdo (msg_id : Nat) (cf : can_frame) (s : DumpState) :
    Option (DumpState × List String) :=
  if s.options_ &&& CO_DUMP_FILTER_SDO = 0 then some (s, [])
  else
    match sdo_get_cs cf with
    | 0 => dump_sdo_dl_seg_req msg_id cf s
    | 1 => some (dump_sdo_dl_init_req msg_id cf s)
    | 2 => some (dump_sdo_ul_init_req msg_id cf s)
    | 3 => some (dump_sdo_ul_seg_req msg_id cf s)
    | 4 => some (dump_sdo_abort "R" msg_id cf s)
    | _ => some (s, print_ts s ++
        ["RSDO " ++ decStr msg_id ++ " unknown-command-specifier" ++ rtr_tail cf])

/-- Embedding of `dump_tsdo` of dump.c: the transmit-SDO dispatcher.  Server command
specifiers (enum sdo_scs, modelled from the spec): 0 upload segment,
1 download segment, 2 initiate upload, 3 initiate download, 4 abort. -/
def dump_tsdo (msg_id : Nat) (cf : can_frame) (s : DumpState) :
    Option (DumpState × List String) :=
  if s.options_ &&& CO_DUMP_FILTER_SDO = 0 then some (s, [])
  else
    match sdo_get_cs cf with
    | 0 => dump_sdo_ul_seg_res msg_id cf s
    | 1 => some (dump_sdo_dl_seg_res msg_id cf s)
    | 2 => dump_sdo_ul_init_res msg_id cf s
    | 3 => some (dump_sdo_dl_init_res msg_id cf s)
    | 4 => some (dump_sdo_abort "T" msg_id cf s)
    | _ => some (s, print_ts s ++
        ["TSDO " ++ decStr msg_id ++ " unknown-command-specifier" ++ rtr_tail cf])

/-- Modelled from the spec: NMT state codes of the protocol
(canopen/nmt.h is missing from the given sources). -/
def NMT_STATE_STOPPED : Nat := 4

/-- Modelled from the spec: the operational NMT state code. -/
def NMT_STATE_OPERATIONAL : Nat := 5

/-- Modelled from the spec: the pre-operational NMT state code. -/
def NMT_STATE_PREOPERATIONAL : Nat := 127

/-- Modelled from the spec: the heartbeat state byte, payload byte 0
(heartbeat_get_state of the missing canopen/heartbeat.h). -/
def heartbeat_get_state (cf : can_frame) : Nat := cf.byte 0

/-- Modelled from the spec: a heartbeat frame is a bootup announcement
when its state byte is 0 (heartbeat_is_bootup of canopen/heartbeat.h). -/
def heartbeat_is_bootup (cf : can_frame) : Bool := heartbeat_get_state cf = 0

/-- Embedding of `state_str` of dump.c. -/
def state_str (st : Nat) : String :=
  if st = NMT_STATE_STOPPED then "stopped"
  else if st = NMT_STATE_OPERATIONAL then "operational"
  else if st = NMT_STATE_PREOPERATIONAL then "pre-operational"
  else "UNKNOWN"

/-- Embedding of `dump_heartbeat` of dump.c. -/
def dump_heartbeat (msg_id : Nat) (cf : can_frame) (s : DumpState) :
    DumpState × List String :=
  if s.options_ &&& CO_DUMP_FILTER_HEARTBEAT = 0 then (s, [])
  else if heartbeat_is_bootup cf then
    (s, print_ts s ++ ["HEARTBEAT " ++ decStr msg_id ++ " bootup" ++ rtr_tail cf])
  else if heartbeat_get_state cf = 1 then
    (s, print_ts s ++ ["HEARTBEAT " ++ decStr msg_id ++ " poll" ++ rtr_tail cf])
  else
    (s, print_ts s ++
      ["HEARTBEAT " ++ decStr msg_id ++ " state=" ++
        state_str (heartbeat_get_state cf) ++ rtr_tail cf])

/-- Embedding of `resolve_filters` of dump.c, acting on the global `options_` that
starts at 0: the non-filter bits of the supplied options are merged in,
then either the supplied filter bits (when at least one is set) or the
whole filter mask (when none is).  The C complement `~CO_DUMP_FILTER_MASK`
is the 32-bit one's complement, here the xor with the all-ones word. -/
def resolve_filters (options : Nat) : Nat :=
  let o1 := options &&& (CO_DUMP_FILTER_MASK ^^^ (UINT_MOD - 1))
  o1 ||| (if options &&& CO_DUMP_FILTER_MASK ≠ 0 then options &&& CO_DUMP_FILTER_MASK
          else CO_DUMP_FILTER_MASK)

/-- Processing a list of download segment frames in arrival order, each
through `dump_sdo_dl_seg_req`, threading the state. -/
def run_dl_segments (msg_id : Nat) (fs : List can_frame) (s : DumpState) :
    Option DumpState :=
  fs.foldlM (fun acc cf => (dump_sdo_dl_seg_req msg_id cf acc).map Prod.fst) s

/-- Processing a list of upload segment frames in arrival order, each
through `dump_sdo_ul_seg_res`, threading the state. -/
def run_ul_segments (msg_id : Nat) (fs : List can_frame) (s : DumpState) :
    Option DumpState :=
  fs.foldlM (fun acc cf => (dump_sdo_ul_seg_res msg_id cf acc).map Prod.fst) s

/-- A node-state table with every accumulator empty, as after
`node_state_init`. -/
def fresh_nodes : Nat → node_state := fun _ => ⟨0, [], 0⟩

/-- A state with every service-class filter enabled and empty node
states. -/
def s_all : DumpState := ⟨CO_DUMP_FILTER_MASK, 0, fresh_nodes⟩

/-- A state with no option bit set at all. -/
def s_none : DumpState := ⟨0, 0, fresh_nodes⟩

/-- A state whose node accumulators hold one stale byte 0xAA. -/
def s_stale : DumpState := ⟨CO_DUMP_FILTER_MASK, 0, fun _ => ⟨0, [170], 0⟩⟩

/-- A non-empty EMCY frame: code 0x1010, register 1, manufacturer bytes. -/
def emcy_frame : can_frame := ⟨0, 8, [16, 16, 1, 170, 187, 204, 204, 204]⟩

/-- An expedited upload-initiate response for the device-type object:
command byte 0x43 (scs 2, expedited, size indicated), index 0x1000,
subindex 0, four data bytes. -/
def devtype_frame : can_frame := ⟨0, 8, [67, 0, 16, 0, 146, 1, 2, 0]⟩

/-- A segmented download initiate without size indication: command byte
0x20 (ccs 1, not expedited, size not indicated), index 0x6000,
subindex 1, full-length frame, remote-request flag set. -/
def seg_init_nosize_frame : can_frame := ⟨CAN_RTR_FLAG, 8, [32, 0, 96, 1, 0, 0, 0, 0]⟩

/-- A segmented download initiate with size indication: command byte 0x21
(ccs 1, not expedited, size indicated), index 0x6000, subindex 1,
declared total size 2. -/
def seg_init_size_frame : can_frame := ⟨0, 8, [33, 0, 96, 1, 2, 0, 0, 0]⟩

/-- A middle (non-end) segment frame carrying bytes 0x11 0x22. -/
def seg_mid_frame : can_frame := ⟨0, 3, [0, 17, 34, 0, 0, 0, 0, 0]⟩

/-- An end segment frame carrying bytes 0x33 0x44 0x55. -/
def seg_end_frame : can_frame := ⟨0, 4, [1, 51, 68, 85, 0, 0, 0, 0]⟩

/-- An expedited download initiate without size indication: command byte
0x22, index 0x6000, subindex 1, full-length frame. -/
def exp_nosize_frame : can_frame := ⟨0, 8, [34, 0, 96, 1, 1, 2, 3, 4]⟩

/-- A heartbeat frame whose state byte is 5 (operational). -/
def hb_frame : can_frame := ⟨0, 1, [5, 0, 0, 0, 0, 0, 0, 0]⟩

theorem get_node_state_pos {s : DumpState} {nodeid : Nat} (h1 : 0 < nodeid)
    (h2 : nodeid ≤ 127) : get_node_state s nodeid = some (s.node_state_ nodeid) := by
  simp [get_node_state, h1, h2]

theorem set_node_state_self (s : DumpState) (nodeid : Nat) (st : node_state) :
    (set_node_state s nodeid st).node_state_ nodeid = st := by
  simp [set_node_state]

theorem set_node_state_options (s : DumpState) (nodeid : Nat) (st : node_state) :
    (set_node_state s nodeid st).options_ = s.options_ := rfl

theorem set_node_state_time (s : DumpState) (nodeid : Nat) (st : node_state) :
    (set_node_state s nodeid st).current_time_ = s.current_time_ := rfl

theorem dl_seg_step (msg_id : Nat) (cf : can_frame) (s : DumpState)
    (h1 : 0 < msg_id) (h2 : msg_id ≤ 127) (hdlc : 1 ≤ cf.can_dlc)
    (hend : sdo_is_end_segment cf = false) :
    (dump_sdo_dl_seg_req msg_id cf s).map Prod.fst =
      some (set_node_state s msg_id
        { s.node_state_ msg_id with
            sdo_data := (s.node_state_ msg_id).sdo_data ++ segment_payload cf }) := by
  have hnlt : ¬ (cf.can_dlc < SDO_SEGMENT_IDX) := by
    simp only [SDO_SEGMENT_IDX]; omega
  simp [dump_sdo_dl_seg_req, hnlt, get_node_state_pos h1 h2, set_node_state_self, hend]

theorem ul_seg_step (msg_id : Nat) (cf : can_frame) (s : DumpState)
    (h1 : 0 < msg_id) (h2 : msg_id ≤ 127) (hdlc : 1 ≤ cf.can_dlc)
    (hend : sdo_is_end_segment cf = false) :
    (dump_sdo_ul_seg_res msg_id cf s).map Prod.fst =
      some (set_node_state s msg_id
        { s.node_state_ msg_id with
            sdo_data := (s.node_state_ msg_id).sdo_data ++ segment_payload cf }) := by
  have hnlt : ¬ (cf.can_dlc < SDO_SEGMENT_IDX) := by
    simp only [SDO_SEGMENT_IDX]; omega
  simp [dump_sdo_ul_seg_res, hnlt, get_node_state_pos h1 h2, set_node_state_self, hend]

theorem run_dl_segments_append (msg_id : Nat) (fs : List can_frame)
    (h1 : 0 < msg_id) (h2 : msg_id ≤ 127) :
    ∀ s : DumpState, (∀ cf ∈ fs, 1 ≤ cf.can_dlc ∧ sdo_is_end_segment cf = false) →
    ∃ s7 : DumpState, run_dl_segments msg_id fs s = some s7 ∧
      s7.node_state_ msg_id =
        { s.node_state_ msg_id with
            sdo_data :=
              (s.node_state_ msg_id).sdo_data ++ (fs.map segment_payload).flatten } := by
  induction fs with
  | nil =>
      intro s _
      refine ⟨s, rfl, ?_⟩
      simp
  | cons cf fs ih =>
      intro s hall
      have hcf := hall cf (List.mem_cons_self cf fs)
      have hrest : ∀ g ∈ fs, 1 ≤ g.can_dlc ∧ sdo_is_end_segment g = false :=
        fun g hg => hall g (List.mem_cons_of_mem cf hg)
      have hstep := dl_seg_step msg_id cf s h1 h2 hcf.1 hcf.2
      obtain ⟨s7, hrun, hnode⟩ :=
        ih (set_node_state s msg_id
          { s.node_state_ msg_id with
              sdo_data := (s.node_state_ msg_id).sdo_data ++ segment_payload cf }) hrest
      refine ⟨s7, ?_, ?_⟩
      · simp only [run_dl_segments] at hrun ⊢
        rw [List.foldlM_cons, hstep]
        simpa using hrun
      · rw [hnode, set_node_state_self]
        simp [List.append_assoc]

theorem run_ul_segments_append (msg_id : Nat) (fs : List can_frame)
    (h1 : 0 < msg_id) (h2 : msg_id ≤ 127) :
    ∀ s : DumpState, (∀ cf ∈ fs, 1 ≤ cf.can_dlc ∧ sdo_is_end_segment cf = false) →
    ∃ s7 : DumpState, run_ul_segments msg_id fs s = some s7 ∧
      s7.node_state_ msg_id =
        { s.node_state_ msg_id with
            sdo_data :=
              (s.node_state_ msg_id).sdo_data ++ (fs.map segment_payload).flatten } := by
  induction fs with
  | nil =>
      intro s _
      refine ⟨s, rfl, ?_⟩
      simp
  | cons cf fs ih =>
      intro s hall
      have hcf := hall cf (List.mem_cons_self cf fs)
      have hrest : ∀ g ∈ fs, 1 ≤ g.can_dlc ∧ sdo_is_end_segment g = false :=
        fun g hg => hall g (List.mem_cons_of_mem cf hg)
      have hstep := ul_seg_step msg_id cf s h1 h2 hcf.1 hcf.2
      obtain ⟨s7, hrun, hnode⟩ :=
        ih (set_node_state s msg_id
          { s.node_state_ msg_id with
              sdo_data := (s.node_state_ msg_id).sdo_data ++ segment_payload cf }) hrest
      refine ⟨s7, ?_, ?_⟩
      · simp only [run_ul_segments] at hrun ⊢
        rw [List.foldlM_cons, hstep]
        simpa using hrun
      · rw [hnode, set_node_state_self]
        simp [List.append_assoc]

theorem dl_seg_end_spec (msg_id : Nat) (cf : can_frame) (s : DumpState)
    (h1 : 0 < msg_id) (h2 : msg_id ≤ 127) (hdlc : 1 ≤ cf.can_dlc)
    (hend : sdo_is_end_segment cf = true) :
    ∃ s8 out, dump_sdo_dl_seg_req msg_id cf s = some (s8, out) ∧
      s8.node_state_ msg_id =
        { s.node_state_ msg_id with
            current_mux := 0,
            sdo_data := (s.node_state_ msg_id).sdo_data ++ segment_payload cf } ∧
      (",final-size=" ++
        decStr ((s.node_state_ msg_id).sdo_data ++ segment_payload cf).length ++
        ",final-data=" ++
        get_segment_data
          (some { s.node_state_ msg_id with
                    sdo_data := (s.node_state_ msg_id).sdo_data ++ segment_payload cf })
          ((s.node_state_ msg_id).sdo_data ++ segment_payload cf)) ∈ out := by
  have hnlt : ¬ (cf.can_dlc < SDO_SEGMENT_IDX) := by
    simp only [SDO_SEGMENT_IDX]; omega
  simp only [dump_sdo_dl_seg_req, if_neg hnlt, get_node_state_pos h1 h2,
    set_node_state_self, hend, eq_self_iff_true, if_true]
  refine ⟨_, _, rfl, ?_, ?_⟩
  · simp [set_node_state_self]
  · simp

theorem ul_seg_end_spec (msg_id : Nat) (cf : can_frame) (s : DumpState)
    (h1 : 0 < msg_id) (h2 : msg_id ≤ 127) (hdlc : 1 ≤ cf.can_dlc)
    (hend : sdo_is_end_segment cf = true) :
    ∃ s8 out, dump_sdo_ul_seg_res msg_id cf s = some (s8, out) ∧
      s8.node_state_ msg_id =
        { s.node_state_ msg_id with
            sdo_data := (s.node_state_ msg_id).sdo_data ++ segment_payload cf } ∧
      (",final-size=" ++
        decStr ((s.node_state_ msg_id).sdo_data ++ segment_payload cf).length ++
        ",final-data=" ++
        get_segment_data
          (some { s.node_state_ msg_id with
                    sdo_data := (s.node_state_ msg_id).sdo_data ++ segment_payload cf })
          ((s.node_state_ msg_id).sdo_data ++ segment_payload cf)) ∈ out := by
  have hnlt : ¬ (cf.can_dlc < SDO_SEGMENT_IDX) := by
    simp only [SDO_SEGMENT_IDX]; omega
  simp only [dump_sdo_ul_seg_res, if_neg hnlt, get_node_state_pos h1 h2,
    set_node_state_self, hend, eq_self_iff_true, if_true]
  refine ⟨_, _, rfl, ?_, ?_⟩
  · simp [set_node_state_self]
  · simp

theorem ul_init_sized_spec (msg_id : Nat) (cf : can_frame) (s : DumpState)
    (h1 : 0 < msg_id) (h2 : msg_id ≤ 127) (hexp : sdo_is_expediated cf = false)
    (hsz : sdo_is_size_indicated cf = true) (hdlc : cf.can_dlc = CAN_MAX_DLC) :
    ∃ s1 out1, dump_sdo_ul_init_res msg_id cf s = some (s1, out1) ∧
      s1.node_state_ msg_id =
        ⟨SDO_MUX (sdo_get_index cf) (sdo_get_subindex cf), [],
         (s.node_state_ msg_id).device_type⟩ := by
  simp only [dump_sdo_ul_init_res, hexp, hsz, hdlc, get_node_state_pos h1 h2,
    set_node_state_self, Bool.false_eq_true, if_false, eq_self_iff_true, and_self,
    if_true]
  refine ⟨_, _, rfl, ?_⟩
  simp [set_node_state_self]

/-- Claim C4: for an expedited SDO initiate frame that is at least as long
as the fixed expedited-data offset, `get_expediated_size` decodes the
frame length minus the offset when no size is indicated, and the declared
size clamped to the available payload bytes when a size is indicated in a
full-length frame. -/
theorem c4_expediated_size (cf : can_frame) (h : SDO_EXPEDIATED_DATA_IDX ≤ cf.can_dlc)
    (h8 : cf.can_dlc ≤ CAN_MAX_DLC) :
    (sdo_is_size_indicated cf = false →
      get_expediated_size cf = cf.can_dlc - SDO_EXPEDIATED_DATA_IDX) ∧
    (sdo_is_size_indicated cf = true → cf.can_dlc = CAN_MAX_DLC →
      get_expediated_size cf =
        min (sdo_get_expediated_size cf) (CAN_MAX_DLC - SDO_EXPEDIATED_DATA_IDX)) := by
  have hmod : (cf.can_dlc + SIZE_T_MOD - SDO_EXPEDIATED_DATA_IDX) % SIZE_T_MOD =
      cf.can_dlc - SDO_EXPEDIATED_DATA_IDX := by
    simp only [SDO_EXPEDIATED_DATA_IDX, SIZE_T_MOD, CAN_MAX_DLC] at h h8 ⊢
    omega
  constructor
  · intro hsz
    simp [get_expediated_size, hsz, hmod]
  · intro hsz hdlc
    simp only [get_expediated_size, hsz, if_true, hmod]
    rw [hdlc]

/-- Claim C4 witness: the expedited initiate `exp_nosize_frame` has no
size indication and decodes length 8 − 4 = 4. -/
theorem c4_expediated_size_witness :
    SDO_EXPEDIATED_DATA_IDX ≤ exp_nosize_frame.can_dlc ∧
    exp_nosize_frame.can_dlc ≤ CAN_MAX_DLC ∧
    (sdo_is_size_indicated exp_nosize_frame = false →
      get_expediated_size exp_nosize_frame =
        exp_nosize_frame.can_dlc - SDO_EXPEDIATED_DATA_IDX) :=
  ⟨by decide, by decide, (c4_expediated_size exp_nosize_frame (by decide) (by decide)).1⟩

/-- Claim C10: for a frame whose data length is between the fixed
expedited-data offset and 8, the computed expedited size never exceeds
the bytes available past the offset, so the rendered slice stays inside
the 8-byte payload; and the precondition is genuinely needed, because for
a shorter frame without size indication the unsigned subtraction wraps to
a size far beyond the payload. -/
theorem c10_expediated_size_bound (cf : can_frame)
    (h4 : SDO_EXPEDIATED_DATA_IDX ≤ cf.can_dlc) (h8 : cf.can_dlc ≤ CAN_MAX_DLC) :
    get_expediated_size cf ≤ cf.can_dlc - SDO_EXPEDIATED_DATA_IDX ∧
    SDO_EXPEDIATED_DATA_IDX + get_expediated_size cf ≤ CAN_MAX_DLC ∧
    ∀ cf' : can_frame, cf'.can_dlc < SDO_EXPEDIATED_DATA_IDX →
      sdo_is_size_indicated cf' = false → CAN_MAX_DLC < get_expediated_size cf' := by
  have hmod : (cf.can_dlc + SIZE_T_MOD - SDO_EXPEDIATED_DATA_IDX) % SIZE_T_MOD =
      cf.can_dlc - SDO_EXPEDIATED_DATA_IDX := by
    simp only [SDO_EXPEDIATED_DATA_IDX, SIZE_T_MOD, CAN_MAX_DLC] at h4 h8 ⊢
    omega
  have hbound : get_expediated_size cf ≤ cf.can_dlc - SDO_EXPEDIATED_DATA_IDX := by
    rcases hcase : sdo_is_size_indicated cf with _ | _ <;>
      simp [get_expediated_size, hcase, hmod]
  refine ⟨hbound, ?_, ?_⟩
  · simp only [SDO_EXPEDIATED_DATA_IDX, CAN_MAX_DLC] at h4 h8 hbound ⊢
    omega
  · intro cf' hlt hsz
    have hmod' : (cf'.can_dlc + SIZE_T_MOD - SDO_EXPEDIATED_DATA_IDX) % SIZE_T_MOD =
        cf'.can_dlc + SIZE_T_MOD - SDO_EXPEDIATED_DATA_IDX := by
      simp only [SDO_EXPEDIATED_DATA_IDX, SIZE_T_MOD] at hlt ⊢
      omega
    simp [get_expediated_size, hsz, hmod']
    simp only [SDO_EXPEDIATED_DATA_IDX, SIZE_T_MOD, CAN_MAX_DLC] at hlt ⊢
    omega

/-- Claim C10 witness: for the full-length expedited frame the size stays
within the payload, and a 2-byte frame without size indication wraps. -/
theorem c10_expediated_size_bound_witness :
    (SDO_EXPEDIATED_DATA_IDX ≤ exp_nosize_frame.can_dlc ∧
     exp_nosize_frame.can_dlc ≤ CAN_MAX_DLC) ∧
    (get_expediated_size exp_nosize_frame ≤
       exp_nosize_frame.can_dlc - SDO_EXPEDIATED_DATA_IDX ∧
     SDO_EXPEDIATED_DATA_IDX + get_expediated_size exp_nosize_frame ≤ CAN_MAX_DLC ∧
     ∀ cf' : can_frame, cf'.can_dlc < SDO_EXPEDIATED_DATA_IDX →
       sdo_is_size_indicated cf' = false → CAN_MAX_DLC < get_expediated_size cf') :=
  ⟨by decide, c10_expediated_size_bound exp_nosize_frame (by decide) (by decide)⟩

/-- Claim C8: option resolution enables every service-class filter when
the supplied options set none, keeps exactly the supplied filter bits
when at least one is set, and carries the non-filter bits (timestamp,
source mode) over unchanged. -/
theorem c8_resolve_filters (options : Nat) :
    (options &&& CO_DUMP_FILTER_MASK = 0 →
      resolve_filters options &&& CO_DUMP_FILTER_MASK = CO_DUMP_FILTER_MASK) ∧
    (options &&& CO_DUMP_FILTER_MASK ≠ 0 →
      resolve_filters options &&& CO_DUMP_FILTER_MASK =
        options &&& CO_DUMP_FILTER_MASK) ∧
    resolve_filters options &&& (CO_DUMP_FILTER_MASK ^^^ (UINT_MOD - 1)) =
      options &&& (CO_DUMP_FILTER_MASK ^^^ (UINT_MOD - 1)) := by
  have hW : UINT_MOD - 1 = 2 ^ 32 - 1 := by norm_num [UINT_MOD]
  have hm32 : ∀ i, Nat.testBit CO_DUMP_FILTER_MASK i = true → i < 32 := by
    intro i hi
    by_contra hge
    have h1 : 2 ^ i ≤ CO_DUMP_FILTER_MASK := Nat.testBit_implies_ge hi
    have h2 : (2 : Nat) ^ 32 ≤ 2 ^ i := Nat.pow_le_pow_right (by norm_num) (by omega)
    have h3 := le_trans h2 h1
    norm_num [CO_DUMP_FILTER_MASK] at h3
  refine ⟨fun h0 => ?_, fun h0 => ?_, ?_⟩
  · simp only [resolve_filters, if_neg (not_not_intro h0)]
    apply Nat.eq_of_testBit_eq
    intro i
    simp only [Nat.testBit_and, Nat.testBit_or]
    cases hM : Nat.testBit CO_DUMP_FILTER_MASK i <;> simp [hM]
  · simp only [resolve_filters, if_pos h0]
    apply Nat.eq_of_testBit_eq
    intro i
    simp only [Nat.testBit_and, Nat.testBit_or]
    cases hM : Nat.testBit CO_DUMP_FILTER_MASK i <;>
      cases ho : options.testBit i <;> simp [hM, ho]
  · simp only [resolve_filters]
    rcases eq_or_ne (options &&& CO_DUMP_FILTER_MASK) 0 with h0 | h0
    · rw [if_neg (not_not_intro h0)]
      apply Nat.eq_of_testBit_eq
      intro i
      rw [hW]
      simp only [Nat.testBit_and, Nat.testBit_or, Nat.testBit_xor,
        Nat.testBit_two_pow_sub_one]
      cases hM : Nat.testBit CO_DUMP_FILTER_MASK i <;> cases hd : decide (i < 32)
      · simp
      · simp
      · exact absurd (hm32 i hM) (by simpa using hd)
      · simp
    · rw [if_pos h0]
      apply Nat.eq_of_testBit_eq
      intro i
      rw [hW]
      simp only [Nat.testBit_and, Nat.testBit_or, Nat.testBit_xor,
        Nat.testBit_two_pow_sub_one]
      cases hM : Nat.testBit CO_DUMP_FILTER_MASK i <;> cases hd : decide (i < 32)
      · simp
      · simp
      · exact absurd (hm32 i hM) (by simpa using hd)
      · simp

/-- Claim C9: the heartbeat decoder renders "bootup" for state byte 0,
"poll" for byte 1, the matching state name for the valid NMT-state bytes,
and "UNKNOWN" for every other byte value. -/
theorem c9_heartbeat_rendering (msg_id : Nat) (cf : can_frame) (s : DumpState)
    (hf : s.options_ &&& CO_DUMP_FILTER_HEARTBEAT ≠ 0) :
    (heartbeat_get_state cf = 0 → (dump_heartbeat msg_id cf s).2 =
      print_ts s ++ ["HEARTBEAT " ++ decStr msg_id ++ " bootup" ++ rtr_tail cf]) ∧
    (heartbeat_get_state cf = 1 → (dump_heartbeat msg_id cf s).2 =
      print_ts s ++ ["HEARTBEAT " ++ decStr msg_id ++ " poll" ++ rtr_tail cf]) ∧
    (heartbeat_get_state cf = NMT_STATE_STOPPED → (dump_heartbeat msg_id cf s).2 =
      print_ts s ++
        ["HEARTBEAT " ++ decStr msg_id ++ " state=" ++ "stopped" ++ rtr_tail cf]) ∧
    (heartbeat_get_state cf = NMT_STATE_OPERATIONAL → (dump_heartbeat msg_id cf s).2 =
      print_ts s ++
        ["HEARTBEAT " ++ decStr msg_id ++ " state=" ++ "operational" ++ rtr_tail cf]) ∧
    (heartbeat_get_state cf = NMT_STATE_PREOPERATIONAL →
      (dump_heartbeat msg_id cf s).2 =
      print_ts s ++
        ["HEARTBEAT " ++ decStr msg_id ++ " state=" ++ "pre-operational" ++
          rtr_tail cf]) ∧
    (heartbeat_get_state cf ≠ 0 → heartbeat_get_state cf ≠ 1 →
      heartbeat_get_state cf ≠ NMT_STATE_STOPPED →
      heartbeat_get_state cf ≠ NMT_STATE_OPERATIONAL →
      heartbeat_get_state cf ≠ NMT_STATE_PREOPERATIONAL →
      (dump_heartbeat msg_id cf s).2 =
      print_ts s ++
        ["HEARTBEAT " ++ decStr msg_id ++ " state=" ++ "UNKNOWN" ++ rtr_tail cf]) := by
  refine ⟨fun h => ?_, fun h => ?_, fun h => ?_, fun h => ?_, fun h => ?_,
    fun h0 h1 h4 h5 h127 => ?_⟩ <;>
    simp_all [dump_heartbeat, heartbeat_is_bootup, state_str, NMT_STATE_STOPPED,
      NMT_STATE_OPERATIONAL, NMT_STATE_PREOPERATIONAL, hf]

/-- Claim C9 witness: a heartbeat frame with state byte 5 renders the
operational state. -/
theorem c9_heartbeat_rendering_witness :
    s_all.options_ &&& CO_DUMP_FILTER_HEARTBEAT ≠ 0 ∧
    heartbeat_get_state hb_frame = NMT_STATE_OPERATIONAL ∧
    (dump_heartbeat 3 hb_frame s_all).2 =
      print_ts s_all ++
        ["HEARTBEAT " ++ decStr 3 ++ " state=" ++ "operational" ++ rtr_tail hb_frame] :=
  ⟨by decide, by decide,
    (c9_heartbeat_rendering 3 hb_frame s_all (by decide)).2.2.2.1 (by decide)⟩

/-- Claim C7: a decoder whose service-class filter bit is disabled
produces no output and leaves the whole state — in particular the
node-state table — untouched. -/
theorem c7_disabled_filter_noop (msg_id : Nat) (cf : can_frame) (s : DumpState) :
    (s.options_ &&& CO_DUMP_FILTER_SDO = 0 →
      dump_rsdo msg_id cf s = some (s, []) ∧ dump_tsdo msg_id cf s = some (s, [])) ∧
    (s.options_ &&& CO_DUMP_FILTER_EMCY = 0 → dump_emcy msg_id cf s = some (s, [])) ∧
    (s.options_ &&& CO_DUMP_FILTER_HEARTBEAT = 0 →
      dump_heartbeat msg_id cf s = (s, [])) := by
  refine ⟨fun h => ⟨?_, ?_⟩, fun h => ?_, fun h => ?_⟩ <;>
    simp [dump_rsdo, dump_tsdo, dump_emcy, dump_heartbeat, h]

/-- Claim C7 witness: with no option bit set, the SDO, EMCY and heartbeat
decoders are no-ops on a sample frame. -/
theorem c7_disabled_filter_noop_witness :
    s_none.options_ &&& CO_DUMP_FILTER_SDO = 0 ∧
    (dump_rsdo 1 seg_mid_frame s_none = some (s_none, []) ∧
     dump_tsdo 1 seg_mid_frame s_none = some (s_none, [])) :=
  ⟨by decide, (c7_disabled_filter_noop 1 seg_mid_frame s_none).1 (by decide)⟩

/-- Claim C1 is violated by the code: for a node id outside 1..127
(broadcast 0 or 200 here) there is no node-state entry, yet `dump_emcy`
with a non-empty payload reads `state->device_type` and
`dump_sdo_ul_init_res` with an expedited device-type response (index
0x1000, subindex 0) writes `state->device_type`, both through the NULL
handle — the embedded decoders fault (`none`) instead of degrading
gracefully. -/
theorem c1_missing_state_faults :
    dump_emcy 0 emcy_frame s_all = none ∧
    dump_emcy 200 emcy_frame s_all = none ∧
    dump_tsdo 0 devtype_frame s_all = none ∧
    dump_tsdo 200 devtype_frame s_all = none ∧
    emcy_frame.can_dlc ≠ 0 ∧
    sdo_is_expediated devtype_frame = true ∧
    sdo_get_index devtype_frame = 4096 ∧ sdo_get_subindex devtype_frame = 0 :=
  ⟨rfl, rfl, rfl, rfl, by decide, by decide, by decide, by decide⟩

/-- Claim C6 is violated by the code: a segmented download initiate
without size indication takes neither printx branch, so the rendered
event is an unterminated fragment — no newline and no remote-request
marker even though the frame's RTR flag is set. -/
theorem c6_unterminated_line :
    (dump_sdo_dl_init_req 1 seg_init_nosize_frame s_all).2 =
      ["RSDO 1 init-download-segment index=6000,subindex=1"] ∧
    seg_init_nosize_frame.can_id &&& CAN_RTR_FLAG ≠ 0 ∧
    Char.ofNat 10 ∉ (String.join ((dump_sdo_dl_init_req 1 seg_init_nosize_frame s_all).2)).data :=
  ⟨by decide, by decide, by decide⟩

/-- Claim C2 counterexample: a segmented download initiate that does not
indicate a size leaves the stale accumulator byte 0xAA in place, so the
accumulator is not cleared at the start of every non-expedited initiate. -/
theorem c2_stale_accumulator_counterexample :
    sdo_is_expediated seg_init_nosize_frame = false ∧
    ((dump_sdo_dl_init_req 1 seg_init_nosize_frame s_stale).1.node_state_ 1).sdo_data =
      [170] ∧
    ((dump_sdo_dl_init_req 1 seg_init_nosize_frame s_stale).1.node_state_ 1).sdo_data ≠
      [] :=
  ⟨by decide, by decide, by decide⟩

/-- Claim C2 (amended): for a node with a state entry, the accumulator is
cleared and re-reserved at the start of a segmented transfer whose
initiate indicates a size in a full-length frame — download and upload
directions alike — and the multiplexer is recorded. -/
theorem c2_amended_clear_on_sized_init (msg_id : Nat) (cf : can_frame) (s : DumpState)
    (h1 : 0 < msg_id) (h2 : msg_id ≤ 127) (hexp : sdo_is_expediated cf = false)
    (hsz : sdo_is_size_indicated cf = true) (hdlc : cf.can_dlc = CAN_MAX_DLC) :
    (((dump_sdo_dl_init_req msg_id cf s).1.node_state_ msg_id).sdo_data = [] ∧
     ((dump_sdo_dl_init_req msg_id cf s).1.node_state_ msg_id).current_mux =
       SDO_MUX (sdo_get_index cf) (sdo_get_subindex cf)) ∧
    ∃ s2 out, dump_sdo_ul_init_res msg_id cf s = some (s2, out) ∧
      (s2.node_state_ msg_id).sdo_data = [] ∧
      (s2.node_state_ msg_id).current_mux =
        SDO_MUX (sdo_get_index cf) (sdo_get_subindex cf) := by
  constructor
  · simp [dump_sdo_dl_init_req, hexp, hsz, hdlc, get_node_state_pos h1 h2,
      set_node_state_self]
  · simp only [dump_sdo_ul_init_res, hexp, hsz, hdlc, get_node_state_pos h1 h2,
      set_node_state_self]
    simp only [Bool.false_eq_true, if_false, and_true, and_self, if_true, if_pos]
    refine ⟨_, _, rfl, ?_, ?_⟩ <;> simp [set_node_state_self]

/-- Claim C2 (amended) witness: the size-indicated initiate clears the
stale accumulator of node 1. -/
theorem c2_amended_clear_on_sized_init_witness :
    (0 < 1 ∧ 1 ≤ 127 ∧ sdo_is_expediated seg_init_size_frame = false ∧
     sdo_is_size_indicated seg_init_size_frame = true ∧
     seg_init_size_frame.can_dlc = CAN_MAX_DLC) ∧
    ((((dump_sdo_dl_init_req 1 seg_init_size_frame s_stale).1.node_state_ 1).sdo_data =
        [] ∧
      (((dump_sdo_dl_init_req 1 seg_init_size_frame s_stale).1.node_state_
          1).current_mux =
        SDO_MUX (sdo_get_index seg_init_size_frame)
          (sdo_get_subindex seg_init_size_frame))) ∧
     ∃ s2 out, dump_sdo_ul_init_res 1 seg_init_size_frame s_stale = some (s2, out) ∧
       (s2.node_state_ 1).sdo_data = [] ∧
       (s2.node_state_ 1).current_mux =
         SDO_MUX (sdo_get_index seg_init_size_frame)
           (sdo_get_subindex seg_init_size_frame)) :=
  ⟨by decide,
    c2_amended_clear_on_sized_init 1 seg_init_size_frame s_stale (by decide) (by decide)
      (by decide) (by decide) (by decide)⟩

/-- Claim C5: on the end segment of a transfer for a node with a state
entry, the full accumulated buffer is additionally rendered through
`get_segment_data` — the same hex-versus-string rule that renders the
per-segment chunk — and the active multiplexer is cleared for the
download direction only; the upload decoder leaves it untouched. -/
theorem c5_end_render_and_mux (msg_id : Nat) (cf : can_frame) (s : DumpState)
    (h1 : 0 < msg_id) (h2 : msg_id ≤ 127) (hdlc : 1 ≤ cf.can_dlc)
    (hend : sdo_is_end_segment cf = true) :
    (∃ s8 out, dump_sdo_dl_seg_req msg_id cf s = some (s8, out) ∧
      (s8.node_state_ msg_id).current_mux = 0 ∧
      (",final-size=" ++
        decStr ((s.node_state_ msg_id).sdo_data ++ segment_payload cf).length ++
        ",final-data=" ++
        get_segment_data
          (some { s.node_state_ msg_id with
                    sdo_data := (s.node_state_ msg_id).sdo_data ++ segment_payload cf })
          ((s.node_state_ msg_id).sdo_data ++ segment_payload cf)) ∈ out) ∧
    (∃ s8 out, dump_sdo_ul_seg_res msg_id cf s = some (s8, out) ∧
      (s8.node_state_ msg_id).current_mux = (s.node_state_ msg_id).current_mux ∧
      (",final-size=" ++
        decStr ((s.node_state_ msg_id).sdo_data ++ segment_payload cf).length ++
        ",final-data=" ++
        get_segment_data
          (some { s.node_state_ msg_id with
                    sdo_data := (s.node_state_ msg_id).sdo_data ++ segment_payload cf })
          ((s.node_state_ msg_id).sdo_data ++ segment_payload cf)) ∈ out) := by
  constructor
  · obtain ⟨s8, out, heq, hnode, hmem⟩ := dl_seg_end_spec msg_id cf s h1 h2 hdlc hend
    exact ⟨s8, out, heq, by simp [hnode], hmem⟩
  · obtain ⟨s8, out, heq, hnode, hmem⟩ := ul_seg_end_spec msg_id cf s h1 h2 hdlc hend
    exact ⟨s8, out, heq, by simp [hnode], hmem⟩

/-- Claim C5 witness: the end segment frame for node 1 on a stale
accumulator. -/
theorem c5_end_render_and_mux_witness :
    (0 < 1 ∧ 1 ≤ 127 ∧ 1 ≤ seg_end_frame.can_dlc ∧
     sdo_is_end_segment seg_end_frame = true) ∧
    ((∃ s8 out, dump_sdo_dl_seg_req 1 seg_end_frame s_stale = some (s8, out) ∧
      (s8.node_state_ 1).current_mux = 0 ∧
      (",final-size=" ++
        decStr ((s_stale.node_state_ 1).sdo_data ++ segment_payload seg_end_frame).length ++
        ",final-data=" ++
        get_segment_data
          (some { s_stale.node_state_ 1 with
                    sdo_data :=
                      (s_stale.node_state_ 1).sdo_data ++ segment_payload seg_end_frame })
          ((s_stale.node_state_ 1).sdo_data ++ segment_payload seg_end_frame)) ∈ out) ∧
    (∃ s8 out, dump_sdo_ul_seg_res 1 seg_end_frame s_stale = some (s8, out) ∧
      (s8.node_state_ 1).current_mux = (s_stale.node_state_ 1).current_mux ∧
      (",final-size=" ++
        decStr ((s_stale.node_state_ 1).sdo_data ++ segment_payload seg_end_frame).length ++
        ",final-data=" ++
        get_segment_data
          (some { s_stale.node_state_ 1 with
                    sdo_data :=
                      (s_stale.node_state_ 1).sdo_data ++ segment_payload seg_end_frame })
          ((s_stale.node_state_ 1).sdo_data ++ segment_payload seg_end_frame)) ∈ out)) :=
  ⟨by decide,
    c5_end_render_and_mux 1 seg_end_frame s_stale (by decide) (by decide) (by decide)
      (by decide)⟩

/-- Claim C3: a segmented transfer for a node with a state entry — an
initiate declaring total size S followed by segment frames whose last
carries the end flag — accumulates exactly the concatenation of all
segment payload slices (bytes from the segment data offset onward) in
arrival order, and the end frame renders that full buffer; no truncation
to S happens in either direction. -/
theorem c3_segmented_concatenation (msg_id S : Nat) (init lf : can_frame)
    (gs : List can_frame) (s : DumpState)
    (h1 : 0 < msg_id) (h2 : msg_id ≤ 127)
    (hexp : sdo_is_expediated init = false) (hsz : sdo_is_size_indicated init = true)
    (hdlc : init.can_dlc = CAN_MAX_DLC) (hS : sdo_get_indicated_size init = S)
    (hgs : ∀ cf ∈ gs, 1 ≤ cf.can_dlc ∧ sdo_is_end_segment cf = false)
    (hlf : 1 ≤ lf.can_dlc) (hend : sdo_is_end_segment lf = true) :
    (∃ s7 s8 out,
      run_dl_segments msg_id gs (dump_sdo_dl_init_req msg_id init s).1 = some s7 ∧
      dump_sdo_dl_seg_req msg_id lf s7 = some (s8, out) ∧
      (s8.node_state_ msg_id).sdo_data = ((gs ++ [lf]).map segment_payload).flatten ∧
      (",final-size=" ++
        decStr (((gs ++ [lf]).map segment_payload).flatten).length ++
        ",final-data=" ++
        get_segment_data
          (some ⟨SDO_MUX (sdo_get_index init) (sdo_get_subindex init),
                 ((gs ++ [lf]).map segment_payload).flatten,
                 (s.node_state_ msg_id).device_type⟩)
          (((gs ++ [lf]).map segment_payload).flatten)) ∈ out) ∧
    (∃ s1 out1 s7 s8 out,
      dump_sdo_ul_init_res msg_id init s = some (s1, out1) ∧
      run_ul_segments msg_id gs s1 = some s7 ∧
      dump_sdo_ul_seg_res msg_id lf s7 = some (s8, out) ∧
      (s8.node_state_ msg_id).sdo_data = ((gs ++ [lf]).map segment_payload).flatten ∧
      (",final-size=" ++
        decStr (((gs ++ [lf]).map segment_payload).flatten).length ++
        ",final-data=" ++
        get_segment_data
          (some ⟨SDO_MUX (sdo_get_index init) (sdo_get_subindex init),
                 ((gs ++ [lf]).map segment_payload).flatten,
                 (s.node_state_ msg_id).device_type⟩)
          (((gs ++ [lf]).map segment_payload).flatten)) ∈ out) := by
  have hjoin : ((gs ++ [lf]).map segment_payload).flatten =
      (gs.map segment_payload).flatten ++ segment_payload lf := by simp
  constructor
  · have hinit_node : ((dump_sdo_dl_init_req msg_id init s).1.node_state_ msg_id) =
        ⟨SDO_MUX (sdo_get_index init) (sdo_get_subindex init), [],
         (s.node_state_ msg_id).device_type⟩ := by
      simp [dump_sdo_dl_init_req, hexp, hsz, hdlc, get_node_state_pos h1 h2,
        set_node_state_self]
    obtain ⟨s7, hrun, hnode7⟩ :=
      run_dl_segments_append msg_id gs h1 h2 (dump_sdo_dl_init_req msg_id init s).1 hgs
    simp [hinit_node] at hnode7
    obtain ⟨s8, out, heq, hnode8, hmem⟩ := dl_seg_end_spec msg_id lf s7 h1 h2 hlf hend
    refine ⟨s7, s8, out, hrun, heq, ?_, ?_⟩
    · rw [hjoin]
      simp [hnode8, hnode7]
    · rw [hjoin]
      simpa [hnode7] using hmem
  · obtain ⟨s1, out1, hinit, hnode1⟩ :=
      ul_init_sized_spec msg_id init s h1 h2 hexp hsz hdlc
    obtain ⟨s7, hrun, hnode7⟩ := run_ul_segments_append msg_id gs h1 h2 s1 hgs
    simp [hnode1] at hnode7
    obtain ⟨s8, out, heq, hnode8, hmem⟩ := ul_seg_end_spec msg_id lf s7 h1 h2 hlf hend
    refine ⟨s1, out1, s7, s8, out, hinit, hrun, heq, ?_, ?_⟩
    · rw [hjoin]
      simp [hnode8, hnode7]
    · rw [hjoin]
      simpa [hnode7] using hmem

/-- Claim C3 witness: node 1, an initiate declaring size 2 followed by a
middle segment and an end segment. -/
theorem c3_segmented_concatenation_witness :
    (0 < 1 ∧ 1 ≤ 127 ∧ sdo_is_expediated seg_init_size_frame = false ∧
     sdo_is_size_indicated seg_init_size_frame = true ∧
     seg_init_size_frame.can_dlc = CAN_MAX_DLC ∧
     sdo_get_indicated_size seg_init_size_frame = 2 ∧
     (∀ cf ∈ [seg_mid_frame], 1 ≤ cf.can_dlc ∧ sdo_is_end_segment cf = false) ∧
     1 ≤ seg_end_frame.can_dlc ∧ sdo_is_end_segment seg_end_frame = true) ∧
    ((∃ s7 s8 out,
      run_dl_segments 1 [seg_mid_frame]
          (dump_sdo_dl_init_req 1 seg_init_size_frame s_all).1 = some s7 ∧
      dump_sdo_dl_seg_req 1 seg_end_frame s7 = some (s8, out) ∧
      (s8.node_state_ 1).sdo_data =
        (([seg_mid_frame] ++ [seg_end_frame]).map segment_payload).flatten ∧
      (",final-size=" ++
        decStr ((([seg_mid_frame] ++ [seg_end_frame]).map segment_payload).flatten).length ++
        ",final-data=" ++
        get_segment_data
          (some ⟨SDO_MUX (sdo_get_index seg_init_size_frame)
                   (sdo_get_subindex seg_init_size_frame),
                 (([seg_mid_frame] ++ [seg_end_frame]).map segment_payload).flatten,
                 (s_all.node_state_ 1).device_type⟩)
          ((([seg_mid_frame] ++ [seg_end_frame]).map segment_payload).flatten)) ∈ out) ∧
    (∃ s1 out1 s7 s8 out,
      dump_sdo_ul_init_res 1 seg_init_size_frame s_all = some (s1, out1) ∧
      run_ul_segments 1 [seg_mid_frame] s1 = some s7 ∧
      dump_sdo_ul_seg_res 1 seg_end_frame s7 = some (s8, out) ∧
      (s8.node_state_ 1).sdo_data =
        (([seg_mid_frame] ++ [seg_end_frame]).map segment_payload).flatten ∧
      (",final-size=" ++
        decStr ((([seg_mid_frame] ++ [seg_end_frame]).map segment_payload).flatten).length ++
        ",final-data=" ++
        get_segment_data
          (some ⟨SDO_MUX (sdo_get_index seg_init_size_frame)
                   (sdo_get_subindex seg_init_size_frame),
                 (([seg_mid_frame] ++ [seg_end_frame]).map segment_payload).flatten,
                 (s_all.node_state_ 1).device_type⟩)
          ((([seg_mid_frame] ++ [seg_end_frame]).map segment_payload).flatten)) ∈ out)) :=
  ⟨by decide,
    c3_segmented_concatenation 1 2 seg_init_size_frame seg_end_frame [seg_mid_frame]
      s_all (by decide) (by decide) (by decide) (by decide) (by decide) (by decide)
      (by decide) (by decide) (by decide)⟩

/-- Claim C8 witness: with no bit set at all, resolution enables the
whole filter mask; with only the SDO filter bit and the timestamp bit
set, exactly those survive. -/
theorem c8_resolve_filters_witness :
    ((0 : Nat) &&& CO_DUMP_FILTER_MASK = 0 ∧
      resolve_filters 0 &&& CO_DUMP_FILTER_MASK = CO_DUMP_FILTER_MASK) ∧
    ((33 : Nat) &&& CO_DUMP_FILTER_MASK ≠ 0 ∧
      resolve_filters 33 &&& CO_DUMP_FILTER_MASK = 33 &&& CO_DUMP_FILTER_MASK) :=
  ⟨⟨by decide, (c8_resolve_filters 0).1 (by decide)⟩,
   ⟨by decide, (c8_resolve_filters 33).2.1 (by decide)⟩⟩

end CoDump
